import Mathlib

/-!
Shallow embedding of the database layer of the Bookings_golang repository
(`database/database.go` together with the schema created by `CreateTables`).

The Go code is a thin wrapper over parameterized PostgreSQL statements, so the
embedding models the database state explicitly (one list of rows per table,
plus one SERIAL counter per table) and each Go repository function as a pure
function over that state, following the semantics of the SQL statement it
executes against the schema declared in `CreateTables`:

  * `QueryRow ... Scan` on a `SELECT ... WHERE id = $1` yields the matching
    row, or `pgx.ErrNoRows` when none matches — modelled as
    `Except DBError row` with `DBError.notFound`.
  * `INSERT` fails when a `UNIQUE`, `CHECK` or `REFERENCES` constraint of the
    DDL is violated — modelled as `DBError.constraintViolation`; otherwise the
    row is appended with the next SERIAL id and the declared column defaults.
  * `Exec` on an `UPDATE ... WHERE id = $n` that matches no row is a no-op
    returning no error; when a row matches, the listed columns are replaced
    and constraints are re-checked.
  * `Exec` on a `DELETE ... WHERE id = $1` that matches no row is a no-op
    returning no error; deleting a row referenced by a dependent table whose
    foreign key has no `ON DELETE` clause fails (PostgreSQL `NO ACTION`), and
    the statement leaves the state unchanged.
  * `ORDER BY` is modelled with `List.insertionSort` on the key of the query.

Timestamps (`TIMESTAMPTZ`) are modelled as integers (UTC instants); Go's
`.UTC()` conversion is the identity on the instant and is not represented.
`DECIMAL` money columns are modelled as integers. Columns filled by the store
(`created_at`, `updated_at` via `DEFAULT CURRENT_TIMESTAMP` or explicit
`CURRENT_TIMESTAMP`) take their value from an explicit `now` parameter.
The auxiliary tables (`employee_services`, `work_templates`, `day_overrides`,
`time_off`, `slot_holds`) have no CRUD functions in `database.go`, so no
reachable state ever populates them; they are omitted from the state.
-/

namespace Bookings

/-- `appointment_status` enum of the DDL. -/
inductive AppointmentStatus where
  | scheduled
  | confirmed
  | inProgress
  | completed
  | cancelled
  | noShow
deriving DecidableEq

/-- `appointment_type` enum of the DDL. -/
inductive AppointmentType where
  | initialConsultation
  | followUp
  | procedure
  | emergency
deriving DecidableEq

/-- `payment_status` enum of the DDL. -/
inductive PaymentStatus where
  | pending
  | paid
  | refunded
deriving DecidableEq

/-- `urgency_level` enum of the DDL. -/
inductive UrgencyLevel where
  | low
  | medium
  | high
  | urgent
deriving DecidableEq

/-- `waiting_list_status` enum of the DDL. -/
inductive WaitingListStatus where
  | active
  | contacted
  | scheduled
  | expired
deriving DecidableEq

/-- Error kinds surfaced by the repository functions: `notFound` models
`pgx.ErrNoRows`, `constraintViolation` models a PostgreSQL unique, check or
foreign-key violation returned through the driver. -/
inductive DBError where
  | notFound
  | constraintViolation
deriving DecidableEq

/-- A row of the `clinics` table / `models.Clinic`. -/
structure Clinic where
  id : Nat
  name : String
  address : String
  phone : String
  email : String
  active : Bool
deriving DecidableEq

/-- A row of the `patients` table / `models.Patient`. -/
structure Patient where
  id : Nat
  firstName : String
  lastName : String
  email : String
  phone : String
  dateOfBirth : String
  medicalRecordNumber : String
  insuranceProvider : String
  insuranceId : String
  emergencyContactName : String
  emergencyContactPhone : String
  active : Bool
  createdAt : Int
deriving DecidableEq

/-- A row of the `employees` table / `models.Employee`. -/
structure Employee where
  id : Nat
  clinicId : Nat
  firstName : String
  lastName : String
  email : String
  phone : String
  licenseNumber : String
  specialty : String
  timezone : String
  active : Bool
  createdAt : Int
deriving DecidableEq

/-- A row of the `services` table / `models.Service`. -/
structure Service where
  id : Nat
  name : String
  description : String
  durationMinutes : Int
  price : Int
  specialtyRequired : String
  active : Bool
deriving DecidableEq

/-- A row of the `appointments` table / `models.Appointment`.
`medical_notes` and `cancellation_reason` are nullable columns that
`CreateAppointment` never supplies, hence `Option String`. -/
structure Appointment where
  id : Nat
  patientId : Nat
  employeeId : Nat
  serviceId : Nat
  clinicId : Nat
  startDatetime : Int
  endDatetime : Int
  status : AppointmentStatus
  appointmentType : AppointmentType
  notes : String
  medicalNotes : Option String
  cancellationReason : Option String
  paymentStatus : PaymentStatus
  paymentAmount : Int
  createdAt : Int
  updatedAt : Int
deriving DecidableEq

/-- A row of the `waiting_list` table / `models.WaitingList`.
`preferred_employee_id` is a nullable foreign key. -/
structure WaitingList where
  id : Nat
  patientId : Nat
  serviceId : Nat
  preferredEmployeeId : Option Nat
  requestedDate : String
  urgencyLevel : UrgencyLevel
  notes : String
  status : WaitingListStatus
  createdAt : Int
deriving DecidableEq

/-- The database state: one list of rows per table (in physical insertion
order) and the next value of each table's SERIAL id sequence. -/
structure DBState where
  clinics : List Clinic
  patients : List Patient
  employees : List Employee
  services : List Service
  appointments : List Appointment
  waitingList : List WaitingList
  nextClinicId : Nat
  nextPatientId : Nat
  nextEmployeeId : Nat
  nextServiceId : Nat
  nextAppointmentId : Nat
  nextWaitingListId : Nat
deriving DecidableEq

/-- The state produced by `CreateTables`: every table dropped and recreated
empty, every SERIAL sequence starting at 1. -/
def CreateTables : DBState where
  clinics := []
  patients := []
  employees := []
  services := []
  appointments := []
  waitingList := []
  nextClinicId := 1
  nextPatientId := 1
  nextEmployeeId := 1
  nextServiceId := 1
  nextAppointmentId := 1
  nextWaitingListId := 1

/-- Key of `GetClinics`' `ORDER BY id`. -/
abbrev clinicById (a b : Clinic) : Prop := a.id ≤ b.id

/-- Key of `GetPatients`' `ORDER BY id`. -/
abbrev patientById (a b : Patient) : Prop := a.id ≤ b.id

/-- Key of `GetEmployees`' `ORDER BY id`. -/
abbrev employeeById (a b : Employee) : Prop := a.id ≤ b.id

/-- Key of `GetServices`' `ORDER BY id`. -/
abbrev serviceById (a b : Service) : Prop := a.id ≤ b.id

/-- Key of `GetAppointments`' `ORDER BY start_datetime DESC`. -/
abbrev apptByStartDesc (a b : Appointment) : Prop :=
  b.startDatetime ≤ a.startDatetime

/-- Key of `GetWaitingList`'s `ORDER BY created_at DESC`. -/
abbrev wlByCreatedDesc (a b : WaitingList) : Prop := b.createdAt ≤ a.createdAt

-- Clinic CRUD operations

/-- `GetClinics`: `SELECT ... FROM clinics ORDER BY id`. -/
def GetClinics (s : DBState) : List Clinic :=
  List.insertionSort clinicById s.clinics

/-- `GetClinic`: `SELECT ... FROM clinics WHERE id = $1`, `pgx.ErrNoRows`
when no row matches. -/
def GetClinic (s : DBState) (id : Nat) : Except DBError Clinic :=
  match s.clinics.find? (fun c => c.id = id) with
  | some c => .ok c
  | none => .error .notFound

/-- `CreateClinic`: `INSERT INTO clinics (name, address, phone, email, active)
... RETURNING id`. The DDL declares `name TEXT NOT NULL UNIQUE`. -/
def CreateClinic (s : DBState) (c : Clinic) : Except DBError (Nat × DBState) :=
  if s.clinics.any (fun r => r.name = c.name) then
    .error .constraintViolation
  else
    .ok (s.nextClinicId,
      { s with
        clinics := s.clinics ++ [{ c with id := s.nextClinicId }]
        nextClinicId := s.nextClinicId + 1 })

/-- `UpdateClinic`: `UPDATE clinics SET name, address, phone, email, active
WHERE id = $6` via `Exec` — a no-op (no error) when no row matches. -/
def UpdateClinic (s : DBState) (id : Nat) (c : Clinic) :
    Except DBError DBState :=
  if s.clinics.all (fun r => r.id ≠ id) then .ok s
  else if s.clinics.any (fun r => r.id ≠ id ∧ r.name = c.name) then
    .error .constraintViolation
  else
    .ok { s with
      clinics := s.clinics.map (fun r =>
        if r.id = id then { c with id := r.id } else r) }

/-- `DeleteClinic`: `DELETE FROM clinics WHERE id = $1`. The foreign keys
`employees.clinic_id REFERENCES clinics(id)` and
`appointments.clinic_id REFERENCES clinics(id)` carry no `ON DELETE` clause,
so deleting a referenced clinic fails; deleting a missing id is a no-op. -/
def DeleteClinic (s : DBState) (id : Nat) : Except DBError DBState :=
  if s.clinics.all (fun r => r.id ≠ id) then .ok s
  else if s.employees.any (fun e => e.clinicId = id)
      || s.appointments.any (fun a => a.clinicId = id) then
    .error .constraintViolation
  else
    .ok { s with clinics := s.clinics.filter (fun r => r.id ≠ id) }

-- Patient CRUD operations

/-- `GetPatients`: `SELECT ... FROM patients ORDER BY id`. -/
def GetPatients (s : DBState) : List Patient :=
  List.insertionSort patientById s.patients

/-- `GetPatient`: `SELECT ... FROM patients WHERE id = $1`. -/
def GetPatient (s : DBState) (id : Nat) : Except DBError Patient :=
  match s.patients.find? (fun p => p.id = id) with
  | some p => .ok p
  | none => .error .notFound

/-- `CreatePatient`: inserts every column except `id` and `created_at`;
`created_at` takes its `DEFAULT CURRENT_TIMESTAMP`, modelled by `now`.
The DDL declares `email TEXT UNIQUE` and `medical_record_number TEXT UNIQUE`. -/
def CreatePatient (s : DBState) (now : Int) (p : Patient) :
    Except DBError (Nat × DBState) :=
  if s.patients.any (fun r =>
      r.email = p.email ∨ r.medicalRecordNumber = p.medicalRecordNumber) then
    .error .constraintViolation
  else
    .ok (s.nextPatientId,
      { s with
        patients := s.patients ++
          [{ p with id := s.nextPatientId, createdAt := now }]
        nextPatientId := s.nextPatientId + 1 })

/-- `UpdatePatient`: replaces every column except `id` and `created_at` of the
row matching `id`; a no-op (no error) when no row matches. -/
def UpdatePatient (s : DBState) (id : Nat) (p : Patient) :
    Except DBError DBState :=
  if s.patients.all (fun r => r.id ≠ id) then .ok s
  else if s.patients.any (fun r => r.id ≠ id ∧
      (r.email = p.email ∨ r.medicalRecordNumber = p.medicalRecordNumber)) then
    .error .constraintViolation
  else
    .ok { s with
      patients := s.patients.map (fun r =>
        if r.id = id then { p with id := r.id, createdAt := r.createdAt }
        else r) }

/-- `DeletePatient`: `DELETE FROM patients WHERE id = $1`. The foreign keys
`appointments.patient_id` and `waiting_list.patient_id` carry no `ON DELETE`
clause, so deleting a referenced patient fails. -/
def DeletePatient (s : DBState) (id : Nat) : Except DBError DBState :=
  if s.patients.all (fun r => r.id ≠ id) then .ok s
  else if s.appointments.any (fun a => a.patientId = id)
      || s.waitingList.any (fun w => w.patientId = id) then
    .error .constraintViolation
  else
    .ok { s with patients := s.patients.filter (fun r => r.id ≠ id) }

-- Employee CRUD operations

/-- `GetEmployees`: `SELECT ... FROM employees ORDER BY id`. -/
def GetEmployees (s : DBState) : List Employee :=
  List.insertionSort employeeById s.employees

/-- `GetEmployee`: `SELECT ... FROM employees WHERE id = $1`. -/
def GetEmployee (s : DBState) (id : Nat) : Except DBError Employee :=
  match s.employees.find? (fun e => e.id = id) with
  | some e => .ok e
  | none => .error .notFound

/-- `CreateEmployee`: inserts every column except `id` and `created_at`.
The DDL declares `email TEXT UNIQUE`, `license_number TEXT UNIQUE` and
`clinic_id INTEGER NOT NULL REFERENCES clinics(id)`. -/
def CreateEmployee (s : DBState) (now : Int) (e : Employee) :
    Except DBError (Nat × DBState) :=
  if s.employees.any (fun r =>
        r.email = e.email ∨ r.licenseNumber = e.licenseNumber)
      || s.clinics.all (fun c => c.id ≠ e.clinicId) then
    .error .constraintViolation
  else
    .ok (s.nextEmployeeId,
      { s with
        employees := s.employees ++
          [{ e with id := s.nextEmployeeId, createdAt := now }]
        nextEmployeeId := s.nextEmployeeId + 1 })

/-- `UpdateEmployee`: replaces every column except `id` and `created_at`;
a no-op when no row matches. -/
def UpdateEmployee (s : DBState) (id : Nat) (e : Employee) :
    Except DBError DBState :=
  if s.employees.all (fun r => r.id ≠ id) then .ok s
  else if s.employees.any (fun r => r.id ≠ id ∧
        (r.email = e.email ∨ r.licenseNumber = e.licenseNumber))
      || s.clinics.all (fun c => c.id ≠ e.clinicId) then
    .error .constraintViolation
  else
    .ok { s with
      employees := s.employees.map (fun r =>
        if r.id = id then { e with id := r.id, createdAt := r.createdAt }
        else r) }

/-- `DeleteEmployee`: `DELETE FROM employees WHERE id = $1`. The foreign keys
`appointments.employee_id` and `waiting_list.preferred_employee_id` carry no
`ON DELETE` clause (`employee_services` cascades, and the other dependent
tables are never populated by this code). -/
def DeleteEmployee (s : DBState) (id : Nat) : Except DBError DBState :=
  if s.employees.all (fun r => r.id ≠ id) then .ok s
  else if s.appointments.any (fun a => a.employeeId = id)
      || s.waitingList.any (fun w => w.preferredEmployeeId = some id) then
    .error .constraintViolation
  else
    .ok { s with employees := s.employees.filter (fun r => r.id ≠ id) }

-- Service CRUD operations

/-- `GetServices`: `SELECT ... FROM services ORDER BY id`. -/
def GetServices (s : DBState) : List Service :=
  List.insertionSort serviceById s.services

/-- `GetService`: `SELECT ... FROM services WHERE id = $1`. -/
def GetService (s : DBState) (id : Nat) : Except DBError Service :=
  match s.services.find? (fun v => v.id = id) with
  | some v => .ok v
  | none => .error .notFound

/-- `CreateService`: the DDL declares `name TEXT NOT NULL UNIQUE` and
`duration_minutes INTEGER NOT NULL CHECK (duration_minutes > 0)`. -/
def CreateService (s : DBState) (v : Service) :
    Except DBError (Nat × DBState) :=
  if s.services.any (fun r => r.name = v.name) || v.durationMinutes ≤ 0 then
    .error .constraintViolation
  else
    .ok (s.nextServiceId,
      { s with
        services := s.services ++ [{ v with id := s.nextServiceId }]
        nextServiceId := s.nextServiceId + 1 })

/-- `UpdateService`: replaces every column except `id`; a no-op when no row
matches. -/
def UpdateService (s : DBState) (id : Nat) (v : Service) :
    Except DBError DBState :=
  if s.services.all (fun r => r.id ≠ id) then .ok s
  else if s.services.any (fun r => r.id ≠ id ∧ r.name = v.name)
      || v.durationMinutes ≤ 0 then
    .error .constraintViolation
  else
    .ok { s with
      services := s.services.map (fun r =>
        if r.id = id then { v with id := r.id } else r) }

/-- `DeleteService`: `DELETE FROM services WHERE id = $1`. The foreign keys
`appointments.service_id` and `waiting_list.service_id` carry no `ON DELETE`
clause (`employee_services` cascades). -/
def DeleteService (s : DBState) (id : Nat) : Except DBError DBState :=
  if s.services.all (fun r => r.id ≠ id) then .ok s
  else if s.appointments.any (fun a => a.serviceId = id)
      || s.waitingList.any (fun w => w.serviceId = id) then
    .error .constraintViolation
  else
    .ok { s with services := s.services.filter (fun r => r.id ≠ id) }

-- Appointment CRUD operations

/-- `GetAppointments`: `SELECT ... FROM appointments ORDER BY start_datetime
DESC`. -/
def GetAppointments (s : DBState) : List Appointment :=
  List.insertionSort apptByStartDesc s.appointments

/-- `GetAppointment`: `SELECT ... FROM appointments WHERE id = $1`. -/
def GetAppointment (s : DBState) (id : Nat) : Except DBError Appointment :=
  match s.appointments.find? (fun a => a.id = id) with
  | some a => .ok a
  | none => .error .notFound

/-- `CreateAppointment`: `INSERT INTO appointments (patient_id, employee_id,
service_id, clinic_id, start_datetime, end_datetime, status,
appointment_type, notes, payment_status, payment_amount) ... RETURNING id`.
The column list omits `medical_notes` and `cancellation_reason` (NULL),
and `created_at`/`updated_at` (both `DEFAULT CURRENT_TIMESTAMP`, modelled by
`now`). The DDL declares `NOT NULL REFERENCES` foreign keys on `patient_id`,
`employee_id`, `service_id` and `clinic_id`. No other check is performed:
the statement has no interval-overlap test and no `end > start` test. -/
def CreateAppointment (s : DBState) (now : Int) (a : Appointment) :
    Except DBError (Nat × DBState) :=
  if s.patients.all (fun p => p.id ≠ a.patientId)
      || s.employees.all (fun e => e.id ≠ a.employeeId)
      || s.services.all (fun v => v.id ≠ a.serviceId)
      || s.clinics.all (fun c => c.id ≠ a.clinicId) then
    .error .constraintViolation
  else
    .ok (s.nextAppointmentId,
      { s with
        appointments := s.appointments ++
          [{ a with
              id := s.nextAppointmentId
              medicalNotes := none
              cancellationReason := none
              createdAt := now
              updatedAt := now }]
        nextAppointmentId := s.nextAppointmentId + 1 })

/-- `UpdateAppointment`: replaces every column except `id` and `created_at`
of the matching row, taking `medical_notes` and `cancellation_reason` from
the argument and setting `updated_at = CURRENT_TIMESTAMP` (modelled by
`now`); a no-op (no error) when no row matches. -/
def UpdateAppointment (s : DBState) (now : Int) (id : Nat) (a : Appointment) :
    Except DBError DBState :=
  if s.appointments.all (fun r => r.id ≠ id) then .ok s
  else if s.patients.all (fun p => p.id ≠ a.patientId)
      || s.employees.all (fun e => e.id ≠ a.employeeId)
      || s.services.all (fun v => v.id ≠ a.serviceId)
      || s.clinics.all (fun c => c.id ≠ a.clinicId) then
    .error .constraintViolation
  else
    .ok { s with
      appointments := s.appointments.map (fun r =>
        if r.id = id then
          { a with id := r.id, createdAt := r.createdAt, updatedAt := now }
        else r) }

/-- `DeleteAppointment`: `DELETE FROM appointments WHERE id = $1`; no table
references `appointments`, so the delete never hits a foreign key. -/
def DeleteAppointment (s : DBState) (id : Nat) : Except DBError DBState :=
  .ok { s with appointments := s.appointments.filter (fun r => r.id ≠ id) }

-- Waiting List CRUD operations

/-- `GetWaitingList`: `SELECT ... FROM waiting_list ORDER BY created_at
DESC`. -/
def GetWaitingList (s : DBState) : List WaitingList :=
  List.insertionSort wlByCreatedDesc s.waitingList

/-- `GetWaitingListItem`: `SELECT ... FROM waiting_list WHERE id = $1`. -/
def GetWaitingListItem (s : DBState) (id : Nat) :
    Except DBError WaitingList :=
  match s.waitingList.find? (fun w => w.id = id) with
  | some w => .ok w
  | none => .error .notFound

/-- `CreateWaitingListItem`: inserts every column except `id` and
`created_at`. The DDL declares `NOT NULL REFERENCES` foreign keys on
`patient_id` and `service_id`, and a nullable `REFERENCES` on
`preferred_employee_id`. -/
def CreateWaitingListItem (s : DBState) (now : Int) (w : WaitingList) :
    Except DBError (Nat × DBState) :=
  if s.patients.all (fun p => p.id ≠ w.patientId)
      || s.services.all (fun v => v.id ≠ w.serviceId)
      || (match w.preferredEmployeeId with
          | some eid => s.employees.all (fun e => e.id ≠ eid)
          | none => false) then
    .error .constraintViolation
  else
    .ok (s.nextWaitingListId,
      { s with
        waitingList := s.waitingList ++
          [{ w with id := s.nextWaitingListId, createdAt := now }]
        nextWaitingListId := s.nextWaitingListId + 1 })

/-- `UpdateWaitingListItem`: replaces every column except `id` and
`created_at`; a no-op when no row matches. -/
def UpdateWaitingListItem (s : DBState) (id : Nat) (w : WaitingList) :
    Except DBError DBState :=
  if s.waitingList.all (fun r => r.id ≠ id) then .ok s
  else if s.patients.all (fun p => p.id ≠ w.patientId)
      || s.services.all (fun v => v.id ≠ w.serviceId)
      || (match w.preferredEmployeeId with
          | some eid => s.employees.all (fun e => e.id ≠ eid)
          | none => false) then
    .error .constraintViolation
  else
    .ok { s with
      waitingList := s.waitingList.map (fun r =>
        if r.id = id then { w with id := r.id, createdAt := r.createdAt }
        else r) }

/-- `DeleteWaitingListItem`: `DELETE FROM waiting_list WHERE id = $1`; no
table references `waiting_list`. -/
def DeleteWaitingListItem (s : DBState) (id : Nat) : Except DBError DBState :=
  .ok { s with waitingList := s.waitingList.filter (fun r => r.id ≠ id) }

/-!
Concrete fixtures, following the sample payloads of the repository README:
a clinic, a patient, an employee of that clinic and a 30-minute service,
with `baseState` the store holding exactly those four rows (the state reached
from `CreateTables` by the four creates). Instants are minutes in UTC on
2025-10-25, so 600 is 10:00Z and 630 is 10:30Z.
-/

/-- Sample clinic payload. -/
def exClinic : Clinic where
  id := 0
  name := "City Medical Center"
  address := "123 Main St, Colombo"
  phone := "+94-11-1234567"
  email := "info@citymedical.lk"
  active := true

/-- Sample patient payload. -/
def exPatient : Patient where
  id := 0
  firstName := "John"
  lastName := "Doe"
  email := "john.doe@email.com"
  phone := "+94-77-1234567"
  dateOfBirth := "1985-05-15"
  medicalRecordNumber := "MRN001"
  insuranceProvider := "ABC Insurance"
  insuranceId := "INS123456"
  emergencyContactName := "Jane Doe"
  emergencyContactPhone := "+94-77-7654321"
  active := true
  createdAt := 0

/-- Sample employee payload, attached to clinic 1. -/
def exEmployee : Employee where
  id := 0
  clinicId := 1
  firstName := "Sarah"
  lastName := "Williams"
  email := "sarah.williams@clinic.com"
  phone := "+94-77-9876543"
  licenseNumber := "MD123456"
  specialty := "cardiology"
  timezone := "Asia/Colombo"
  active := true
  createdAt := 0

/-- Sample service payload. -/
def exService : Service where
  id := 0
  name := "General Consultation"
  description := "Comprehensive health check and consultation"
  durationMinutes := 30
  price := 150
  specialtyRequired := "general_medicine"
  active := true

/-- Store holding one clinic, one patient, one employee and one service,
each with id 1 — the state reached from `CreateTables` by the four creates. -/
def baseState : DBState where
  clinics := [{ exClinic with id := 1 }]
  patients := [{ exPatient with id := 1, createdAt := 1 }]
  employees := [{ exEmployee with id := 1, createdAt := 2 }]
  services := [{ exService with id := 1 }]
  appointments := []
  waitingList := []
  nextClinicId := 2
  nextPatientId := 2
  nextEmployeeId := 2
  nextServiceId := 2
  nextAppointmentId := 1
  nextWaitingListId := 1

/-- `baseState` is reachable: it is the store after creating the four sample
rows in order, starting from `CreateTables`. -/
theorem baseState_reachable :
    CreateClinic CreateTables exClinic = .ok (1,
      { CreateTables with
        clinics := [{ exClinic with id := 1 }], nextClinicId := 2 }) ∧
    CreatePatient
      { CreateTables with
        clinics := [{ exClinic with id := 1 }], nextClinicId := 2 }
      1 exPatient = .ok (1,
      { CreateTables with
        clinics := [{ exClinic with id := 1 }], nextClinicId := 2
        patients := [{ exPatient with id := 1, createdAt := 1 }]
        nextPatientId := 2 }) ∧
    CreateEmployee
      { CreateTables with
        clinics := [{ exClinic with id := 1 }], nextClinicId := 2
        patients := [{ exPatient with id := 1, createdAt := 1 }]
        nextPatientId := 2 }
      2 exEmployee = .ok (1,
      { CreateTables with
        clinics := [{ exClinic with id := 1 }], nextClinicId := 2
        patients := [{ exPatient with id := 1, createdAt := 1 }]
        nextPatientId := 2
        employees := [{ exEmployee with id := 1, createdAt := 2 }]
        nextEmployeeId := 2 }) ∧
    CreateService
      { CreateTables with
        clinics := [{ exClinic with id := 1 }], nextClinicId := 2
        patients := [{ exPatient with id := 1, createdAt := 1 }]
        nextPatientId := 2
        employees := [{ exEmployee with id := 1, createdAt := 2 }]
        nextEmployeeId := 2 }
      exService = .ok (1, baseState) :=
  ⟨rfl, rfl, rfl, rfl⟩

/-- Sample appointment payload for employee 1 at 10:00Z–10:30Z
(600–630 in minutes). -/
def appt1 : Appointment where
  id := 0
  patientId := 1
  employeeId := 1
  serviceId := 1
  clinicId := 1
  startDatetime := 600
  endDatetime := 630
  status := .scheduled
  appointmentType := .initialConsultation
  notes := "Patient reports chest pain"
  medicalNotes := none
  cancellationReason := none
  paymentStatus := .pending
  paymentAmount := 150
  createdAt := 0
  updatedAt := 0

/-- Second appointment payload for the same employee at 10:15Z–10:45Z
(615–645), overlapping `appt1`. -/
def appt2 : Appointment :=
  { appt1 with startDatetime := 615, endDatetime := 645 }

/-- `baseState` after `CreateAppointment baseState 3 appt1`. -/
def overlapState : DBState :=
  { baseState with
    appointments := [{ appt1 with id := 1, createdAt := 3, updatedAt := 3 }]
    nextAppointmentId := 2 }

/-- Claim C1: the spec requires that creating a second appointment for the
same employee whose half-open interval intersects an existing active one
fails with Conflict and stores no second row. The code performs no overlap
check: on the concrete scenario of the spec (employee 1 booked 10:00Z–10:30Z,
second request 10:15Z–10:45Z, both SCHEDULED), `CreateAppointment` accepts
the second request and stores the second row. -/
theorem createAppointment_overlap_accepted :
    CreateAppointment baseState 3 appt1 = .ok (1, overlapState) ∧
    appt2.employeeId = appt1.employeeId ∧
    appt1.startDatetime < appt2.endDatetime ∧
    appt2.startDatetime < appt1.endDatetime ∧
    appt1.status = .scheduled ∧ appt2.status = .scheduled ∧
    CreateAppointment overlapState 4 appt2 = .ok (2,
      { overlapState with
        appointments := overlapState.appointments ++
          [{ appt2 with id := 2, createdAt := 4, updatedAt := 4 }]
        nextAppointmentId := 3 }) :=
  ⟨rfl, rfl, by decide, by decide, rfl, rfl, rfl⟩

/-- Appointment payload whose end instant equals its start instant
(end ≤ start). -/
def apptDegenerate : Appointment :=
  { appt1 with startDatetime := 600, endDatetime := 600 }

/-- Claim C2: the spec requires `end > start` for every appointment, with
creation failing by ValidationError otherwise. The code performs no such
validation: `CreateAppointment` accepts an appointment whose end equals its
start and stores the row, so the invariant does not hold for reachable
states. -/
theorem createAppointment_end_le_start_accepted :
    apptDegenerate.endDatetime ≤ apptDegenerate.startDatetime ∧
    CreateAppointment baseState 3 apptDegenerate = .ok (1,
      { baseState with
        appointments :=
          [{ apptDegenerate with id := 1, createdAt := 3, updatedAt := 3 }]
        nextAppointmentId := 2 }) :=
  ⟨le_refl _, rfl⟩

/-- Claim C3: the spec requires `update(id, entity)` to fail with NotFound
when no row matches. All six update functions run `Exec` on an `UPDATE`
statement and ignore the affected-row count, so updating a missing id (here
id 1 in the empty store produced by `CreateTables`) returns success and
changes nothing, for every one of the six entities. -/
theorem update_missing_id_succeeds :
    UpdateClinic CreateTables 1 exClinic = .ok CreateTables ∧
    UpdatePatient CreateTables 1 exPatient = .ok CreateTables ∧
    UpdateEmployee CreateTables 1 exEmployee = .ok CreateTables ∧
    UpdateService CreateTables 1 exService = .ok CreateTables ∧
    UpdateAppointment CreateTables 5 1 appt1 = .ok CreateTables ∧
    UpdateWaitingListItem CreateTables 1
      { id := 0, patientId := 1, serviceId := 1, preferredEmployeeId := none
        requestedDate := "2025-10-26", urgencyLevel := .high, notes := ""
        status := .active, createdAt := 0 } = .ok CreateTables := by
  refine ⟨rfl, rfl, rfl, rfl, rfl, rfl⟩

/-- Claim C4: each of the six `get` functions runs `QueryRow ... WHERE id =
$1` and `Scan`, which yields `pgx.ErrNoRows` when no row matches, so `get` on
an id matching no row fails with NotFound and returns no entity, for all six
entity repositories. -/
theorem get_missing_id_notFound (s : DBState) (id : Nat)
    (hc : ∀ r ∈ s.clinics, r.id ≠ id)
    (hp : ∀ r ∈ s.patients, r.id ≠ id)
    (he : ∀ r ∈ s.employees, r.id ≠ id)
    (hv : ∀ r ∈ s.services, r.id ≠ id)
    (ha : ∀ r ∈ s.appointments, r.id ≠ id)
    (hw : ∀ r ∈ s.waitingList, r.id ≠ id) :
    GetClinic s id = .error .notFound ∧
    GetPatient s id = .error .notFound ∧
    GetEmployee s id = .error .notFound ∧
    GetService s id = .error .notFound ∧
    GetAppointment s id = .error .notFound ∧
    GetWaitingListItem s id = .error .notFound := by
  refine ⟨?_, ?_, ?_, ?_, ?_, ?_⟩
  · unfold GetClinic
    rw [List.find?_eq_none.mpr (fun x hx => by simpa using hc x hx)]
  · unfold GetPatient
    rw [List.find?_eq_none.mpr (fun x hx => by simpa using hp x hx)]
  · unfold GetEmployee
    rw [List.find?_eq_none.mpr (fun x hx => by simpa using he x hx)]
  · unfold GetService
    rw [List.find?_eq_none.mpr (fun x hx => by simpa using hv x hx)]
  · unfold GetAppointment
    rw [List.find?_eq_none.mpr (fun x hx => by simpa using ha x hx)]
  · unfold GetWaitingListItem
    rw [List.find?_eq_none.mpr (fun x hx => by simpa using hw x hx)]

/-- Witness for C4: in the empty store produced by `CreateTables`, id 1
matches no row in any table and every `get` reports NotFound. -/
theorem get_missing_id_notFound_witness :
    GetClinic CreateTables 1 = .error .notFound ∧
    GetPatient CreateTables 1 = .error .notFound ∧
    GetEmployee CreateTables 1 = .error .notFound ∧
    GetService CreateTables 1 = .error .notFound ∧
    GetAppointment CreateTables 1 = .error .notFound ∧
    GetWaitingListItem CreateTables 1 = .error .notFound :=
  get_missing_id_notFound CreateTables 1
    (by intro r hr; simp [CreateTables] at hr)
    (by intro r hr; simp [CreateTables] at hr)
    (by intro r hr; simp [CreateTables] at hr)
    (by intro r hr; simp [CreateTables] at hr)
    (by intro r hr; simp [CreateTables] at hr)
    (by intro r hr; simp [CreateTables] at hr)

/-- Claim C10: each of the six `delete` functions runs `Exec` on a `DELETE
... WHERE id = $1` and ignores the affected-row count, so deleting an id
matching no row succeeds and changes nothing, for all six entity
repositories, and running the same delete twice behaves exactly like running
it once (the second-run identities hold for every state and id). -/
theorem delete_missing_id_ok_and_idempotent (s : DBState) (id : Nat)
    (hc : ∀ r ∈ s.clinics, r.id ≠ id)
    (hp : ∀ r ∈ s.patients, r.id ≠ id)
    (he : ∀ r ∈ s.employees, r.id ≠ id)
    (hv : ∀ r ∈ s.services, r.id ≠ id)
    (ha : ∀ r ∈ s.appointments, r.id ≠ id)
    (hw : ∀ r ∈ s.waitingList, r.id ≠ id) :
    (DeleteClinic s id = .ok s ∧ DeletePatient s id = .ok s ∧
     DeleteEmployee s id = .ok s ∧ DeleteService s id = .ok s ∧
     DeleteAppointment s id = .ok s ∧ DeleteWaitingListItem s id = .ok s) ∧
    (∀ t i, (DeleteClinic t i).bind (fun u => DeleteClinic u i) =
        DeleteClinic t i) ∧
    (∀ t i, (DeletePatient t i).bind (fun u => DeletePatient u i) =
        DeletePatient t i) ∧
    (∀ t i, (DeleteEmployee t i).bind (fun u => DeleteEmployee u i) =
        DeleteEmployee t i) ∧
    (∀ t i, (DeleteService t i).bind (fun u => DeleteService u i) =
        DeleteService t i) ∧
    (∀ t i, (DeleteAppointment t i).bind (fun u => DeleteAppointment u i) =
        DeleteAppointment t i) ∧
    (∀ t i, (DeleteWaitingListItem t i).bind
        (fun u => DeleteWaitingListItem u i) = DeleteWaitingListItem t i) := by
  constructor
  · refine ⟨?_, ?_, ?_, ?_, ?_, ?_⟩
    · unfold DeleteClinic
      rw [if_pos (by simpa [List.all_eq_true] using hc)]
    · unfold DeletePatient
      rw [if_pos (by simpa [List.all_eq_true] using hp)]
    · unfold DeleteEmployee
      rw [if_pos (by simpa [List.all_eq_true] using he)]
    · unfold DeleteService
      rw [if_pos (by simpa [List.all_eq_true] using hv)]
    · unfold DeleteAppointment
      have h : s.appointments.filter (fun r => r.id ≠ id) = s.appointments :=
        List.filter_eq_self.mpr (fun r hr => by simpa using ha r hr)
      rw [h]
    · unfold DeleteWaitingListItem
      have h : s.waitingList.filter (fun r => r.id ≠ id) = s.waitingList :=
        List.filter_eq_self.mpr (fun r hr => by simpa using hw r hr)
      rw [h]
  · refine ⟨?_, ?_, ?_, ?_, ?_, ?_⟩ <;> intro t i
    · unfold DeleteClinic
      split_ifs with h1 h2
      · simp only [Except.bind]
        rw [if_pos h1]
      · rfl
      · simp only [Except.bind]
        rw [if_pos ?_]
        simp only [List.all_eq_true, List.mem_filter]
        intro r hr
        simpa using hr.2
    · unfold DeletePatient
      split_ifs with h1 h2
      · simp only [Except.bind]
        rw [if_pos h1]
      · rfl
      · simp only [Except.bind]
        rw [if_pos ?_]
        simp only [List.all_eq_true, List.mem_filter]
        intro r hr
        simpa using hr.2
    · unfold DeleteEmployee
      split_ifs with h1 h2
      · simp only [Except.bind]
        rw [if_pos h1]
      · rfl
      · simp only [Except.bind]
        rw [if_pos ?_]
        simp only [List.all_eq_true, List.mem_filter]
        intro r hr
        simpa using hr.2
    · unfold DeleteService
      split_ifs with h1 h2
      · simp only [Except.bind]
        rw [if_pos h1]
      · rfl
      · simp only [Except.bind]
        rw [if_pos ?_]
        simp only [List.all_eq_true, List.mem_filter]
        intro r hr
        simpa using hr.2
    · unfold DeleteAppointment
      simp only [Except.bind, List.filter_filter, Bool.and_self]
    · unfold DeleteWaitingListItem
      simp only [Except.bind, List.filter_filter, Bool.and_self]

/-- Witness for C10: id 1 matches no row of the empty store produced by
`CreateTables`, and every delete succeeds leaving the store unchanged; the
second run of each delete on the resulting state again succeeds and changes
nothing. -/
theorem delete_missing_id_ok_and_idempotent_witness :
    (DeleteClinic CreateTables 1 = .ok CreateTables ∧
     DeletePatient CreateTables 1 = .ok CreateTables ∧
     DeleteEmployee CreateTables 1 = .ok CreateTables ∧
     DeleteService CreateTables 1 = .ok CreateTables ∧
     DeleteAppointment CreateTables 1 = .ok CreateTables ∧
     DeleteWaitingListItem CreateTables 1 = .ok CreateTables) ∧
    ((DeleteClinic CreateTables 1).bind (fun u => DeleteClinic u 1) =
      DeleteClinic CreateTables 1) ∧
    ((DeleteAppointment baseState 1).bind (fun u => DeleteAppointment u 1) =
      DeleteAppointment baseState 1) :=
  have h := delete_missing_id_ok_and_idempotent CreateTables 1
    (by intro r hr; simp [CreateTables] at hr)
    (by intro r hr; simp [CreateTables] at hr)
    (by intro r hr; simp [CreateTables] at hr)
    (by intro r hr; simp [CreateTables] at hr)
    (by intro r hr; simp [CreateTables] at hr)
    (by intro r hr; simp [CreateTables] at hr)
  ⟨h.1, h.2.1 CreateTables 1, h.2.2.2.2.2.1 baseState 1⟩

/-- Claim C7: `employees.clinic_id REFERENCES clinics(id)` has no
`ON DELETE` clause, so a clinic referenced by at least one employee cannot
be deleted: `DeleteClinic` fails with a constraint violation, and — the
statement being atomic, modelled by the error branch carrying no successor
state — the clinic row is still readable afterwards. -/
theorem deleteClinic_referenced_constraintViolation (s : DBState) (cid : Nat)
    (e : Employee) (hmem : e ∈ s.employees) (href : e.clinicId = cid)
    (c : Clinic) (hcmem : c ∈ s.clinics) (hcid : c.id = cid) :
    DeleteClinic s cid = .error .constraintViolation ∧
    (∃ x, GetClinic s cid = .ok x) := by
  constructor
  · unfold DeleteClinic
    have h1 : ¬ ((s.clinics.all (fun r => r.id ≠ cid)) = true) := by
      intro hall
      rw [List.all_eq_true] at hall
      exact absurd hcid (by simpa using hall c hcmem)
    have h2 : (s.employees.any (fun r => r.clinicId = cid)
        || s.appointments.any (fun a => a.clinicId = cid)) = true := by
      simp only [Bool.or_eq_true, List.any_eq_true]
      exact Or.inl ⟨e, hmem, by simpa using href⟩
    rw [if_neg h1, if_pos h2]
  · have h3 : (s.clinics.find? (fun r => r.id = cid)).isSome :=
      List.find?_isSome.mpr ⟨c, hcmem, by simpa using hcid⟩
    unfold GetClinic
    cases hfind : s.clinics.find? (fun r => r.id = cid) with
    | some x => exact ⟨x, rfl⟩
    | none => rw [hfind] at h3; simp at h3

/-- Witness for C7: in `baseState` employee 1 belongs to clinic 1, so
deleting clinic 1 fails with a constraint violation and the clinic row is
still returned by `GetClinic`. -/
theorem deleteClinic_referenced_constraintViolation_witness :
    DeleteClinic baseState 1 = .error .constraintViolation ∧
    GetClinic baseState 1 = .ok { exClinic with id := 1 } :=
  ⟨(deleteClinic_referenced_constraintViolation baseState 1
      { exEmployee with id := 1, createdAt := 2 } (by simp [baseState]) rfl
      { exClinic with id := 1 } (by simp [baseState]) rfl).1,
    rfl⟩

/-- Appointment payload at 01:40Z–02:10Z (100–130 in minutes). -/
def apptA : Appointment :=
  { appt1 with startDatetime := 100, endDatetime := 130 }

/-- Appointment payload at 05:00Z–05:30Z (300–330 in minutes). -/
def apptB : Appointment :=
  { appt1 with startDatetime := 300, endDatetime := 330 }

/-- Appointment payload at 03:20Z–03:50Z (200–230 in minutes). -/
def apptC : Appointment :=
  { appt1 with startDatetime := 200, endDatetime := 230 }

/-- `baseState` after creating `apptA`, `apptB` and `apptC` in this order
(ids 1, 2, 3; creation instants 10, 20, 30). -/
def ordState : DBState :=
  { baseState with
    appointments :=
      [{ apptA with id := 1, createdAt := 10, updatedAt := 10 },
       { apptB with id := 2, createdAt := 20, updatedAt := 20 },
       { apptC with id := 3, createdAt := 30, updatedAt := 30 }]
    nextAppointmentId := 4 }

/-- Counterexample to claim C5 as stated: `GetAppointments` runs `ORDER BY
start_datetime DESC`, not an order on id or created_at. In the reachable
store `ordState` (built by three successive creates) the result lists ids
`[2, 3, 1]`, which is sorted neither by id nor by created_at, in either
direction. -/
theorem getAppointments_not_ordered_by_id_or_createdAt :
    ((CreateAppointment baseState 10 apptA).bind
        (fun r => CreateAppointment r.2 20 apptB)).bind
        (fun r => CreateAppointment r.2 30 apptC) = .ok (3, ordState) ∧
    (GetAppointments ordState).map (fun a => a.id) = [2, 3, 1] ∧
    ¬ (GetAppointments ordState).Sorted (fun a b => a.id ≤ b.id) ∧
    ¬ (GetAppointments ordState).Sorted (fun a b => b.id ≤ a.id) ∧
    ¬ (GetAppointments ordState).Sorted (fun a b => a.createdAt ≤ b.createdAt) ∧
    ¬ (GetAppointments ordState).Sorted (fun a b => b.createdAt ≤ a.createdAt) :=
  ⟨rfl, rfl, by decide, by decide, by decide, by decide⟩

instance : IsTotal Clinic clinicById := ⟨fun a b => Nat.le_total a.id b.id⟩

instance : IsTrans Clinic clinicById := ⟨fun _ _ _ h h2 => Nat.le_trans h h2⟩

instance : IsTotal Patient patientById := ⟨fun a b => Nat.le_total a.id b.id⟩

instance : IsTrans Patient patientById := ⟨fun _ _ _ h h2 => Nat.le_trans h h2⟩

instance : IsTotal Employee employeeById := ⟨fun a b => Nat.le_total a.id b.id⟩

instance : IsTrans Employee employeeById := ⟨fun _ _ _ h h2 => Nat.le_trans h h2⟩

instance : IsTotal Service serviceById := ⟨fun a b => Nat.le_total a.id b.id⟩

instance : IsTrans Service serviceById := ⟨fun _ _ _ h h2 => Nat.le_trans h h2⟩

instance : IsTotal Appointment apptByStartDesc :=
  ⟨fun a b => Int.le_total b.startDatetime a.startDatetime⟩

instance : IsTrans Appointment apptByStartDesc :=
  ⟨fun _ _ _ h h2 => Int.le_trans h2 h⟩

instance : IsTotal WaitingList wlByCreatedDesc :=
  ⟨fun a b => Int.le_total b.createdAt a.createdAt⟩

instance : IsTrans WaitingList wlByCreatedDesc :=
  ⟨fun _ _ _ h h2 => Int.le_trans h2 h⟩

/-- Claim C5 as amended: each list function returns all rows of its table —
a permutation of the stored rows — ordered by the key of its query:
`ORDER BY id` for clinics, patients, employees and services,
`ORDER BY start_datetime DESC` for appointments, and
`ORDER BY created_at DESC` for the waiting list. -/
theorem list_returns_all_rows_ordered_by_query_key (s : DBState) :
    (GetClinics s).Perm s.clinics ∧ (GetClinics s).Sorted clinicById ∧
    (GetPatients s).Perm s.patients ∧ (GetPatients s).Sorted patientById ∧
    (GetEmployees s).Perm s.employees ∧
    (GetEmployees s).Sorted employeeById ∧
    (GetServices s).Perm s.services ∧ (GetServices s).Sorted serviceById ∧
    (GetAppointments s).Perm s.appointments ∧
    (GetAppointments s).Sorted apptByStartDesc ∧
    (GetWaitingList s).Perm s.waitingList ∧
    (GetWaitingList s).Sorted wlByCreatedDesc :=
  ⟨List.perm_insertionSort clinicById s.clinics,
   List.sorted_insertionSort clinicById s.clinics,
   List.perm_insertionSort patientById s.patients,
   List.sorted_insertionSort patientById s.patients,
   List.perm_insertionSort employeeById s.employees,
   List.sorted_insertionSort employeeById s.employees,
   List.perm_insertionSort serviceById s.services,
   List.sorted_insertionSort serviceById s.services,
   List.perm_insertionSort apptByStartDesc s.appointments,
   List.sorted_insertionSort apptByStartDesc s.appointments,
   List.perm_insertionSort wlByCreatedDesc s.waitingList,
   List.sorted_insertionSort wlByCreatedDesc s.waitingList⟩

/-- `find?` over a list extended with a fresh matching element at the end:
when no earlier element matches, the appended element is found. -/
theorem find?_append_fresh {α : Type} (p : α → Bool) (l : List α) (x : α)
    (hl : ∀ y ∈ l, ¬ p y = true) (hx : p x = true) :
    (l ++ [x]).find? p = some x := by
  rw [List.find?_append, List.find?_eq_none.mpr hl]
  simp [List.find?, hx]

/-- `GetClinic` returns exactly what the row lookup finds. -/
theorem GetClinic_of_find? {s : DBState} {id : Nat} {x : Clinic}
    (h : s.clinics.find? (fun r => r.id = id) = some x) :
    GetClinic s id = .ok x := by
  unfold GetClinic
  rw [h]

/-- `GetPatient` returns exactly what the row lookup finds. -/
theorem GetPatient_of_find? {s : DBState} {id : Nat} {x : Patient}
    (h : s.patients.find? (fun r => r.id = id) = some x) :
    GetPatient s id = .ok x := by
  unfold GetPatient
  rw [h]

/-- `GetEmployee` returns exactly what the row lookup finds. -/
theorem GetEmployee_of_find? {s : DBState} {id : Nat} {x : Employee}
    (h : s.employees.find? (fun r => r.id = id) = some x) :
    GetEmployee s id = .ok x := by
  unfold GetEmployee
  rw [h]

/-- `GetService` returns exactly what the row lookup finds. -/
theorem GetService_of_find? {s : DBState} {id : Nat} {x : Service}
    (h : s.services.find? (fun r => r.id = id) = some x) :
    GetService s id = .ok x := by
  unfold GetService
  rw [h]

/-- Patient payload whose `createdAt` field is 5, used to separate the
submitted record from the stored one. -/
def cexPatient : Patient := { exPatient with createdAt := 5 }

/-- Counterexample to claim C6 as stated: for Patient (and Employee) the
stored record is not `input plus the assigned identity` — `created_at` is
filled by the store (`DEFAULT CURRENT_TIMESTAMP`), not taken from the input.
Creating `cexPatient` (submitted `createdAt = 5`) at store time 7 and reading
it back yields a record whose `createdAt` is 7, different from the input
with only the identity assigned. -/
theorem createPatient_roundtrip_createdAt_differs :
    CreatePatient CreateTables 7 cexPatient = .ok (1,
      { CreateTables with
        patients := [{ cexPatient with id := 1, createdAt := 7 }]
        nextPatientId := 2 }) ∧
    GetPatient
      { CreateTables with
        patients := [{ cexPatient with id := 1, createdAt := 7 }]
        nextPatientId := 2 } 1 =
      .ok { cexPatient with id := 1, createdAt := 7 } ∧
    { cexPatient with id := 1, createdAt := 7 } ≠
      ({ cexPatient with id := 1 } : Patient) :=
  ⟨rfl, rfl, by decide⟩

/-- Claim C6 as amended: for every valid payload, `create` followed by `get`
on the assigned id returns the submitted record with the identity assigned —
exactly for Clinic and Service, and with `created_at` additionally replaced
by the store-assigned creation instant for Patient and Employee; every field
submitted by the INSERT statement is preserved. -/
theorem create_then_get_roundtrip (s : DBState) (now : Int)
    (c : Clinic) (p : Patient) (e : Employee) (v : Service)
    (ic ip ie iv : Nat) (sc sp se sv : DBState)
    (hcf : ∀ r ∈ s.clinics, r.id ≠ s.nextClinicId)
    (hpf : ∀ r ∈ s.patients, r.id ≠ s.nextPatientId)
    (hef : ∀ r ∈ s.employees, r.id ≠ s.nextEmployeeId)
    (hvf : ∀ r ∈ s.services, r.id ≠ s.nextServiceId)
    (hc : CreateClinic s c = .ok (ic, sc))
    (hp : CreatePatient s now p = .ok (ip, sp))
    (he : CreateEmployee s now e = .ok (ie, se))
    (hv : CreateService s v = .ok (iv, sv)) :
    GetClinic sc ic = .ok { c with id := ic } ∧
    GetPatient sp ip = .ok { p with id := ip, createdAt := now } ∧
    GetEmployee se ie = .ok { e with id := ie, createdAt := now } ∧
    GetService sv iv = .ok { v with id := iv } := by
  refine ⟨?_, ?_, ?_, ?_⟩
  · unfold CreateClinic at hc
    split_ifs at hc
    rw [Except.ok.injEq, Prod.mk.injEq] at hc
    obtain ⟨h1, h2⟩ := hc
    subst h1
    subst h2
    exact GetClinic_of_find? (find?_append_fresh _ _ _
      (fun y hy => by simpa using hcf y hy) (by simp))
  · unfold CreatePatient at hp
    split_ifs at hp
    rw [Except.ok.injEq, Prod.mk.injEq] at hp
    obtain ⟨h1, h2⟩ := hp
    subst h1
    subst h2
    exact GetPatient_of_find? (find?_append_fresh _ _ _
      (fun y hy => by simpa using hpf y hy) (by simp))
  · unfold CreateEmployee at he
    split_ifs at he
    rw [Except.ok.injEq, Prod.mk.injEq] at he
    obtain ⟨h1, h2⟩ := he
    subst h1
    subst h2
    exact GetEmployee_of_find? (find?_append_fresh _ _ _
      (fun y hy => by simpa using hef y hy) (by simp))
  · unfold CreateService at hv
    split_ifs at hv
    rw [Except.ok.injEq, Prod.mk.injEq] at hv
    obtain ⟨h1, h2⟩ := hv
    subst h1
    subst h2
    exact GetService_of_find? (find?_append_fresh _ _ _
      (fun y hy => by simpa using hvf y hy) (by simp))

/-- Second clinic payload, name distinct from `exClinic`. -/
def exClinic2 : Clinic := { exClinic with name := "Lakeside Clinic" }

/-- Second patient payload, unique columns distinct from `exPatient`. -/
def exPatient2 : Patient :=
  { exPatient with
    email := "amy.perera@email.com",
    medicalRecordNumber := "MRN002" }

/-- Second employee payload, unique columns distinct from `exEmployee`. -/
def exEmployee2 : Employee :=
  { exEmployee with
    email := "raj.kumar@clinic.com",
    licenseNumber := "MD654321" }

/-- Second service payload, name distinct from `exService`. -/
def exService2 : Service := { exService with name := "Cardiology Screening" }

/-- Witness for C6: creating the four second payloads in `baseState` at
store time 9 and reading each back on the assigned id 2 returns the
submitted record plus the identity (plus the store clock for Patient and
Employee). -/
theorem create_then_get_roundtrip_witness :
    GetClinic
      { baseState with
        clinics := baseState.clinics ++ [{ exClinic2 with id := 2 }]
        nextClinicId := 3 } 2 = .ok { exClinic2 with id := 2 } ∧
    GetPatient
      { baseState with
        patients := baseState.patients ++
          [{ exPatient2 with id := 2, createdAt := 9 }]
        nextPatientId := 3 } 2 =
      .ok { exPatient2 with id := 2, createdAt := 9 } ∧
    GetEmployee
      { baseState with
        employees := baseState.employees ++
          [{ exEmployee2 with id := 2, createdAt := 9 }]
        nextEmployeeId := 3 } 2 =
      .ok { exEmployee2 with id := 2, createdAt := 9 } ∧
    GetService
      { baseState with
        services := baseState.services ++ [{ exService2 with id := 2 }]
        nextServiceId := 3 } 2 = .ok { exService2 with id := 2 } :=
  create_then_get_roundtrip baseState 9 exClinic2 exPatient2 exEmployee2
    exService2 2 2 2 2 _ _ _ _
    (by decide) (by decide) (by decide) (by decide) rfl rfl rfl rfl

/-- Appointment payload with changed notes and an `updatedAt` field of 99,
used to show `UpdateAppointment` does not take `updated_at` from the
entity. -/
def cexApptUpdate : Appointment :=
  { appt1 with notes := "rescheduled by phone", updatedAt := 99 }

/-- Counterexample to claim C8 as stated: `UpdateAppointment` does not
replace the `updated_at` column from the entity — it sets
`updated_at = CURRENT_TIMESTAMP`. Updating appointment 1 of `overlapState`
at store time 50 with an entity carrying `updatedAt = 99` stores a row whose
`updatedAt` is 50, so not every column other than identity and created_at is
taken from the entity. -/
theorem updateAppointment_updatedAt_not_from_entity :
    UpdateAppointment overlapState 50 1 cexApptUpdate = .ok
      { overlapState with
        appointments :=
          [{ cexApptUpdate with id := 1, createdAt := 3, updatedAt := 50 }] } ∧
    GetAppointment
      { overlapState with
        appointments :=
          [{ cexApptUpdate with id := 1, createdAt := 3, updatedAt := 50 }] }
      1 = .ok { cexApptUpdate with id := 1, createdAt := 3, updatedAt := 50 } ∧
    ({ cexApptUpdate with id := 1, createdAt := 3, updatedAt := 50 }
      : Appointment).updatedAt ≠ cexApptUpdate.updatedAt :=
  ⟨rfl, rfl, by decide⟩

/-- Claim C8 as amended: on a successful update of an existing row, every
column of that row is replaced from the entity except identity and
created_at — and, for Appointment, except updated_at, which is set to the
current store time — while every row with a different id and every other
table are left unchanged (shown for `UpdatePatient` and
`UpdateAppointment`, the two functions the claim cites). -/
theorem update_replaces_columns_frame (s : DBState) (id : Nat) (now : Int)
    (p : Patient) (a : Appointment) (sp sa : DBState)
    (hp : UpdatePatient s id p = .ok sp)
    (ha : UpdateAppointment s now id a = .ok sa) :
    (∀ r ∈ s.patients, r.id ≠ id → r ∈ sp.patients) ∧
    (∀ r ∈ s.patients, r.id = id →
      { p with id := r.id, createdAt := r.createdAt } ∈ sp.patients) ∧
    sp.clinics = s.clinics ∧ sp.employees = s.employees ∧
    sp.services = s.services ∧ sp.appointments = s.appointments ∧
    sp.waitingList = s.waitingList ∧
    (∀ r ∈ s.appointments, r.id ≠ id → r ∈ sa.appointments) ∧
    (∀ r ∈ s.appointments, r.id = id →
      { a with id := r.id, createdAt := r.createdAt, updatedAt := now }
        ∈ sa.appointments) ∧
    sa.clinics = s.clinics ∧ sa.patients = s.patients ∧
    sa.employees = s.employees ∧ sa.services = s.services ∧
    sa.waitingList = s.waitingList := by
  have hpat : (∀ r ∈ s.patients, r.id ≠ id → r ∈ sp.patients) ∧
      (∀ r ∈ s.patients, r.id = id →
        { p with id := r.id, createdAt := r.createdAt } ∈ sp.patients) ∧
      sp.clinics = s.clinics ∧ sp.employees = s.employees ∧
      sp.services = s.services ∧ sp.appointments = s.appointments ∧
      sp.waitingList = s.waitingList := by
    unfold UpdatePatient at hp
    split_ifs at hp with h1 h2
    · rw [Except.ok.injEq] at hp
      subst hp
      rw [List.all_eq_true] at h1
      exact ⟨fun r hr _ => hr,
        fun r hr hid => absurd hid (by simpa using h1 r hr),
        rfl, rfl, rfl, rfl, rfl⟩
    · rw [Except.ok.injEq] at hp
      subst hp
      refine ⟨?_, ?_, rfl, rfl, rfl, rfl, rfl⟩
      · intro r hr hne
        have hm := List.mem_map_of_mem (fun r =>
          if r.id = id then { p with id := r.id, createdAt := r.createdAt }
          else r) hr
        dsimp only at hm
        rwa [if_neg hne] at hm
      · intro r hr hid
        have hm := List.mem_map_of_mem (fun r =>
          if r.id = id then { p with id := r.id, createdAt := r.createdAt }
          else r) hr
        dsimp only at hm
        rwa [if_pos hid] at hm
  have happ : (∀ r ∈ s.appointments, r.id ≠ id → r ∈ sa.appointments) ∧
      (∀ r ∈ s.appointments, r.id = id →
        { a with id := r.id, createdAt := r.createdAt, updatedAt := now }
          ∈ sa.appointments) ∧
      sa.clinics = s.clinics ∧ sa.patients = s.patients ∧
      sa.employees = s.employees ∧ sa.services = s.services ∧
      sa.waitingList = s.waitingList := by
    unfold UpdateAppointment at ha
    split_ifs at ha with h1 h2
    · rw [Except.ok.injEq] at ha
      subst ha
      rw [List.all_eq_true] at h1
      exact ⟨fun r hr _ => hr,
        fun r hr hid => absurd hid (by simpa using h1 r hr),
        rfl, rfl, rfl, rfl, rfl⟩
    · rw [Except.ok.injEq] at ha
      subst ha
      refine ⟨?_, ?_, rfl, rfl, rfl, rfl, rfl⟩
      · intro r hr hne
        have hm := List.mem_map_of_mem (fun r =>
          if r.id = id then
            { a with id := r.id, createdAt := r.createdAt, updatedAt := now }
          else r) hr
        dsimp only at hm
        rwa [if_neg hne] at hm
      · intro r hr hid
        have hm := List.mem_map_of_mem (fun r =>
          if r.id = id then
            { a with id := r.id, createdAt := r.createdAt, updatedAt := now }
          else r) hr
        dsimp only at hm
        rwa [if_pos hid] at hm
  obtain ⟨p1, p2, p3, p4, p5, p6, p7⟩ := hpat
  obtain ⟨a1, a2, a3, a4, a5, a6, a7⟩ := happ
  exact ⟨p1, p2, p3, p4, p5, p6, p7, a1, a2, a3, a4, a5, a6, a7⟩

/-- Witness for C8: updating patient 1 and appointment 1 of `overlapState`
(store time 77) succeeds; the stored rows carry every entity column with the
original id and created_at (and the store clock as updated_at), and the
other tables are untouched. -/
theorem update_replaces_columns_frame_witness :
    ({ exPatient2 with id := 1, createdAt := 1 } ∈
      ({ overlapState with
        patients := [{ exPatient2 with id := 1, createdAt := 1 }]
        } : DBState).patients) ∧
    ({ appt2 with id := 1, createdAt := 3, updatedAt := 77 } ∈
      ({ overlapState with
        appointments := [{ appt2 with
          id := 1, createdAt := 3, updatedAt := 77 }] }
        : DBState).appointments) :=
  have h := update_replaces_columns_frame overlapState 1 77 exPatient2 appt2
    { overlapState with
      patients := [{ exPatient2 with id := 1, createdAt := 1 }] }
    { overlapState with
      appointments := [{ appt2 with
        id := 1, createdAt := 3, updatedAt := 77 }] }
    rfl rfl
  ⟨h.2.1 { exPatient with id := 1, createdAt := 1 } (by simp [overlapState, baseState]) rfl,
   h.2.2.2.2.2.2.2.2.1 { appt1 with id := 1, createdAt := 3, updatedAt := 3 }
     (by simp [overlapState]) rfl⟩

/-- Claim C9: the INSERT of `CreateAppointment` lists neither
`medical_notes` nor `cancellation_reason`, so the created row always has
NULL in both columns: creation is insensitive to those two input fields, the
stored row carries `none` in both regardless of the input, and a subsequent
`UpdateAppointment` — the only function whose statement writes those
columns — stores the entity's values for them. -/
theorem createAppointment_ignores_medicalNotes (s : DBState)
    (now now2 : Int) (a : Appointment) (x y : Option String) (i : Nat)
    (s2 s3 : DBState)
    (h : CreateAppointment s now a = .ok (i, s2))
    (hu : UpdateAppointment s2 now2 i a = .ok s3) :
    CreateAppointment s now
      { a with medicalNotes := x, cancellationReason := y } = .ok (i, s2) ∧
    s2.appointments = s.appointments ++
      [{ a with
        id := i, medicalNotes := none, cancellationReason := none,
        createdAt := now, updatedAt := now }] ∧
    { a with id := i, createdAt := now, updatedAt := now2 }
      ∈ s3.appointments := by
  have hs2 : s2.appointments = s.appointments ++
      [{ a with
        id := i, medicalNotes := none, cancellationReason := none,
        createdAt := now, updatedAt := now }] ∧ i = s.nextAppointmentId := by
    unfold CreateAppointment at h
    split_ifs at h
    rw [Except.ok.injEq, Prod.mk.injEq] at h
    obtain ⟨h1, h2⟩ := h
    subst h1
    subst h2
    exact ⟨rfl, rfl⟩
  refine ⟨h, hs2.1, ?_⟩
  have hmem : ({ a with
      id := i, medicalNotes := none,
      cancellationReason := none, createdAt := now, updatedAt := now }
      : Appointment) ∈ s2.appointments := by
    rw [hs2.1]
    exact List.mem_append_right _ (List.mem_singleton.mpr rfl)
  unfold UpdateAppointment at hu
  split_ifs at hu with h1 h2
  · rw [List.all_eq_true] at h1
    have hfalse := h1 _ hmem
    simp at hfalse
  · rw [Except.ok.injEq] at hu
    subst hu
    have hm := List.mem_map_of_mem (fun r =>
      if r.id = i then
        { a with id := r.id, createdAt := r.createdAt, updatedAt := now2 }
      else r) hmem
    dsimp only at hm
    rwa [if_pos rfl] at hm

/-- Witness for C9: creating `appt1` in `baseState` with medical notes and a
cancellation reason supplied stores a row with NULL in both columns, and the
follow-up update writes them back from the entity. -/
theorem createAppointment_ignores_medicalNotes_witness :
    CreateAppointment baseState 3
      { appt1 with
        medicalNotes := some "BP elevated",
        cancellationReason := some "n/a" } = .ok (1, overlapState) ∧
    overlapState.appointments = baseState.appointments ++
      [{ appt1 with
        id := 1, medicalNotes := none,
        cancellationReason := none, createdAt := 3, updatedAt := 3 }] ∧
    { appt1 with id := 1, createdAt := 3, updatedAt := 9 }
      ∈ ({ overlapState with
          appointments := [{ appt1 with
            id := 1, createdAt := 3, updatedAt := 9 }] }
          : DBState).appointments :=
  createAppointment_ignores_medicalNotes baseState 3 9 appt1
    (some "BP elevated") (some "n/a") 1 overlapState
    { overlapState with
      appointments := [{ appt1 with
        id := 1, createdAt := 3, updatedAt := 9 }] }
    rfl rfl

end Bookings
